import Mathlib

/-!
Shallow embedding of `src/MikeWindows.h` (namespace MikeWindows): a thin
object-oriented adapter over the Win32 windowing API.  C strings and
`std::wstring` values are modelled as `List Char`; machine words (HWND,
WPARAM, LPARAM, LRESULT, DWORD, UINT, object pointers) are modelled as `Nat`
with `0` playing the role of the null pointer / null handle and with
`% 2 ^ 32` inserted exactly where the C code converts to a 32-bit type.
The Windows SDK macros used by the source (`HANDLE_MSG` message crackers from
WindowsX.h, `LOWORD`/`HIWORD`, `MAKELPARAM`, `GET_X_LPARAM`/`GET_Y_LPARAM`)
are embedded with their documented SDK semantics, since the source's
dispatch behaviour is defined through them.
-/

namespace MikeWindows

/-- C string / `std::wstring` model: a sequence of characters. -/
abbrev CStr := List Char

/-- Native window handle; `0` is the null handle. -/
abbrev HWND := Nat

/-- Address of an `AppWindow` object; `0` is the null pointer. -/
abbrev ObjPtr := Nat

abbrev UINT := Nat

abbrev WPARAM := Nat

abbrev LPARAM := Nat

abbrev LRESULT := Nat

abbrev DWORD := Nat

/-- Windows SDK message code `WM_NCCREATE` (0x0081). -/
def WM_NCCREATE : UINT := 0x0081

/-- Windows SDK message code `WM_DESTROY` (0x0002). -/
def WM_DESTROY : UINT := 0x0002

/-- Windows SDK message code `WM_LBUTTONUP` (0x0202). -/
def WM_LBUTTONUP : UINT := 0x0202

/-- Windows SDK message code `WM_MOUSEMOVE` (0x0200). -/
def WM_MOUSEMOVE : UINT := 0x0200

/-- Windows SDK message code `WM_NCHITTEST` (0x0084). -/
def WM_NCHITTEST : UINT := 0x0084

/-- Windows SDK message code `WM_PAINT` (0x000F). -/
def WM_PAINT : UINT := 0x000F

/-- Windows SDK message code `WM_SETCURSOR` (0x0020). -/
def WM_SETCURSOR : UINT := 0x0020

/-- Windows SDK error code `ERROR_CLASS_ALREADY_EXISTS` (1410). -/
def ERROR_CLASS_ALREADY_EXISTS : DWORD := 1410

/-- SDK macro `LOWORD`: the low-order 16 bits. -/
def LOWORD (l : Nat) : Nat := l % 2 ^ 16

/-- SDK macro `HIWORD`: bits 16..31. -/
def HIWORD (l : Nat) : Nat := l / 2 ^ 16 % 2 ^ 16

/-- The C cast `(int)(short)w` applied to a 16-bit word: two's-complement
sign extension to a signed integer. -/
def signExtend16 (w : Nat) : Int :=
  if w < 2 ^ 15 then (w : Int) else (w : Int) - 2 ^ 16

/-- SDK macro `GET_X_LPARAM` composed with the crackers' `(int)(short)` cast:
the signed x coordinate packed in the low word of `lParam`. -/
def GET_X_LPARAM (l : LPARAM) : Int := signExtend16 (LOWORD l)

/-- SDK macro `GET_Y_LPARAM` composed with the crackers' `(int)(short)` cast:
the signed y coordinate packed in the high word of `lParam`. -/
def GET_Y_LPARAM (l : LPARAM) : Int := signExtend16 (HIWORD l)

/-- The 16 low bits of a C `int`, as used by `MAKELPARAM` on a possibly
negative coordinate (`Int.emod` yields the two's-complement low word). -/
def word16OfInt (x : Int) : Nat := (x % 2 ^ 16).toNat

/-- SDK macro `MAKELPARAM` on two signed ints (as in `FORWARD_WM_NCHITTEST`):
pack two 16-bit words into the low 32 bits. -/
def MAKELPARAMi (x y : Int) : LPARAM := word16OfInt x + word16OfInt y * 2 ^ 16

/-- SDK macro `MAKELPARAM` on two unsigned values (as in
`FORWARD_WM_SETCURSOR`). -/
def MAKELPARAMn (a b : Nat) : LPARAM := a % 2 ^ 16 + b % 2 ^ 16 * 2 ^ 16

/-!
## `win32_error::format` (MikeWindows.h lines 35-60)

The `FormatMessageA` call is the platform collaborator: it either produces a
description string for the error code or fails; we model its outcome as an
`Option CStr` argument.  `Nat.repr`-style decimal rendering of the error code
is modelled by `decimalRender` below (the behaviour of the C stream insertion
`stream << error_code` and of `std::to_wstring`).
-/

/-- Little-endian list of decimal digit characters of `n`; empty for `0`.
Helper for `decimalRender`. -/
def natDigitsLE : Nat → List Char
  | 0 => []
  | n + 1 => Nat.digitChar ((n + 1) % 10) :: natDigitsLE ((n + 1) / 10)
decreasing_by exact Nat.div_lt_self (Nat.succ_pos n) (by norm_num)

/-- Decimal rendering of an unsigned integer, as produced by C++
`std::to_wstring(uintptr_t)` and by `stream << (DWORD)code`. -/
def decimalRender (n : Nat) : CStr :=
  if n = 0 then ['0'] else (natDigitsLE n).reverse

/-- MikeWindows.h lines 50-52: if the description from the platform ends in
the two characters `"\r\n"`, chop that single trailing CRLF off. -/
def stripTrailingCRLF (s : CStr) : CStr :=
  if 2 ≤ s.length ∧ s.drop (s.length - 2) = ['\r', '\n'] then
    s.take (s.length - 2)
  else s

/-- `win32_error::format` (MikeWindows.h lines 35-60).  `description` is the
outcome of the `FormatMessageA` platform call: `some d` when the platform can
supply a description `d` for the code, `none` otherwise. -/
def win32_error.format (message : CStr) (error_code : DWORD)
    (description : Option CStr) : CStr :=
  let base := message ++ (": error ".toList) ++ decimalRender error_code
  match description with
  | none => base
  | some d => base ++ (": ".toList) ++ stripTrailingCRLF d

/-- The failure value thrown by the two fallible platform call sites: it
carries the context label passed to the `win32_error` constructor and the
platform error code (`GetLastError()` by default). -/
structure Win32Error where
  message : CStr
  code : DWORD
deriving DecidableEq, Repr

/-- `AppWindow::get_class_name` (MikeWindows.h lines 163-166):
`std::to_wstring(reinterpret_cast<uintptr_t>(&WndProc))` — the decimal
rendering of the address of the concrete type's dispatch entry point. -/
def get_class_name (wndProcAddr : Nat) : CStr := decimalRender wndProcAddr

/-!
## Message dispatch (`AppWindow<T>::WndProc`, MikeWindows.h lines 178-203)

`AppWindow<T>` uses CRTP: every handler call in `WndProc` goes through
`this_ : T *`, so static dispatch always selects the most-derived type `T`'s
member — the override when `T` declares one, the inherited `AppWindow`
default otherwise.  We model this by parametrising the dispatch over a
`Handlers` record holding `T`'s effective member functions; each handler
takes the receiver object (`this`) and its C++ parameters and returns its
C++ result together with the list of platform side effects it performs
(the only effect the source uses is `PostQuitMessage`).

`WndProc` itself is instrumented: alongside the mutated state and the
`LRESULT`, it reports the exact sequence of handler invocations it performs
(a `Call` records the receiver and the decoded arguments) and the effects of
the handlers it ran.  The final line of the source,
`return this_->on_message(...)`, is a member call through `this_` even when
the per-handle lookup recovered a null pointer; that undefined behaviour is
modelled by the `Outcome.nullDeref` result.
-/

/-- A side effect a handler performs against the platform.  The only one in
the source is `PostQuitMessage` (MikeWindows.h line 235). -/
inductive Effect
  | postQuit (exitCode : Nat)
deriving DecidableEq, Repr

/-- The effective member functions of the concrete type `T`: for each
handler, `T`'s override when it has one, otherwise the `AppWindow<T>`
default.  Signatures follow MikeWindows.h lines 209-220; each returns its
C++ result paired with the effects it performs. -/
structure Handlers where
  on_destroy : ObjPtr → HWND → Unit × List Effect
  on_hittest : ObjPtr → HWND → Int → Int → UINT × List Effect
  on_left_button_up : ObjPtr → HWND → Int → Int → UINT → Unit × List Effect
  on_mouse_move : ObjPtr → HWND → Int → Int → UINT → Unit × List Effect
  on_paint : ObjPtr → HWND → Unit × List Effect
  on_set_cursor : ObjPtr → HWND → HWND → UINT → UINT → Nat × List Effect
  on_message : ObjPtr → HWND → UINT → WPARAM → LPARAM → LRESULT × List Effect

/-- One handler invocation performed by `WndProc`, recording the receiver
object and the arguments as decoded from `wParam`/`lParam`. -/
inductive Call
  | callDestroy (this_ : ObjPtr) (h : HWND)
  | callLeftButtonUp (this_ : ObjPtr) (h : HWND) (x y : Int) (flags : UINT)
  | callMouseMove (this_ : ObjPtr) (h : HWND) (x y : Int) (flags : UINT)
  | callHittest (this_ : ObjPtr) (h : HWND) (x y : Int)
  | callPaint (this_ : ObjPtr) (h : HWND)
  | callSetCursor (this_ : ObjPtr) (h hwndCursor : HWND) (codeHitTest msg : UINT)
  | callMessage (this_ : ObjPtr) (h : HWND) (m : UINT) (w : WPARAM) (l : LPARAM)
deriving DecidableEq, Repr

/-- What `WndProc` hands back to the platform: a defined `LRESULT`, or the
undefined behaviour of the member call through a null object pointer. -/
inductive Outcome
  | ret (r : LRESULT)
  | nullDeref
deriving DecidableEq, Repr

/-- The mutable state `WndProc` touches: the platform's per-handle user
storage (`GWLP_USERDATA`, `0` when never set — `GetWindowLongPtr` returns 0
for an unset slot) and each object's `m_window` field. -/
structure WinState where
  userData : HWND → ObjPtr
  mWindow : ObjPtr → HWND

/-- Platform memory visible to `WndProc`: dereferencing `lParam` as a
`CREATESTRUCT *` and reading its `lpCreateParams` field. -/
structure Platform where
  lpCreateParams : LPARAM → ObjPtr

/-- Result of one `WndProc` invocation. -/
structure DispatchOut where
  state : WinState
  calls : List Call
  effects : List Effect
  outcome : Outcome

/-- `AppWindow<T>::WndProc` (MikeWindows.h lines 178-203).  The `WM_NCCREATE`
branch stores the creation parameter's handle and binds the per-handle user
storage; then the owner is recovered from user storage and, when non-null,
the `switch` of `HANDLE_MSG` crackers (WindowsX.h semantics: argument
decoding, `0L` results for `void` handlers, 32-bit truncation of the
`on_hittest` / `on_set_cursor` results) dispatches the six supported codes;
every other case — including a null owner — reaches the final
`this_->on_message(window, message, wParam, lParam)`. -/
def WndProc (pf : Platform) (hs : Handlers) (s : WinState)
    (window : HWND) (message : UINT) (wParam : WPARAM) (lParam : LPARAM) :
    DispatchOut :=
  let s1 : WinState :=
    if message = WM_NCCREATE then
      let param := pf.lpCreateParams lParam
      { mWindow := fun p => if p = param then window else s.mWindow p,
        userData := fun h => if h = window then param else s.userData h }
    else s
  let this_ := s1.userData window
  let rest : List Call × List Effect × Outcome :=
    if this_ = 0 then
      ([], [], Outcome.nullDeref)
    else if message = WM_DESTROY then
      let r := hs.on_destroy this_ window
      ([Call.callDestroy this_ window], r.2, Outcome.ret 0)
    else if message = WM_LBUTTONUP then
      let x := GET_X_LPARAM lParam
      let y := GET_Y_LPARAM lParam
      let flags := wParam % 2 ^ 32
      let r := hs.on_left_button_up this_ window x y flags
      ([Call.callLeftButtonUp this_ window x y flags], r.2, Outcome.ret 0)
    else if message = WM_MOUSEMOVE then
      let x := GET_X_LPARAM lParam
      let y := GET_Y_LPARAM lParam
      let flags := wParam % 2 ^ 32
      let r := hs.on_mouse_move this_ window x y flags
      ([Call.callMouseMove this_ window x y flags], r.2, Outcome.ret 0)
    else if message = WM_NCHITTEST then
      let x := GET_X_LPARAM lParam
      let y := GET_Y_LPARAM lParam
      let r := hs.on_hittest this_ window x y
      ([Call.callHittest this_ window x y], r.2, Outcome.ret (r.1 % 2 ^ 32))
    else if message = WM_PAINT then
      let r := hs.on_paint this_ window
      ([Call.callPaint this_ window], r.2, Outcome.ret 0)
    else if message = WM_SETCURSOR then
      let hwndCursor := wParam
      let codeHitTest := LOWORD lParam
      let msg := HIWORD lParam
      let r := hs.on_set_cursor this_ window hwndCursor codeHitTest msg
      ([Call.callSetCursor this_ window hwndCursor codeHitTest msg], r.2,
        Outcome.ret (r.1 % 2 ^ 32))
    else
      let r := hs.on_message this_ window message wParam lParam
      ([Call.callMessage this_ window message wParam lParam], r.2,
        Outcome.ret r.1)
  ⟨s1, rest.1, rest.2.1, rest.2.2⟩

/-- The `AppWindow<T>` default handler implementations (MikeWindows.h lines
209-220), parametrised by the platform's `DefWindowProc`.  `on_hittest`
forwards via `FORWARD_WM_NCHITTEST` (wParam `0`, coordinates re-packed with
`MAKELPARAM`, result cast through `UINT`); `on_set_cursor` forwards via
`FORWARD_WM_SETCURSOR` (result cast through `DWORD`/`BOOL`); `on_message`
forwards the message unchanged. -/
def defaultHandlers (defwp : HWND → UINT → WPARAM → LPARAM → LRESULT) :
    Handlers where
  on_destroy := fun _ _ => ((), [])
  on_hittest := fun _ hwnd x y =>
    (defwp hwnd WM_NCHITTEST 0 (MAKELPARAMi x y) % 2 ^ 32, [])
  on_left_button_up := fun _ _ _ _ _ => ((), [])
  on_mouse_move := fun _ _ _ _ _ => ((), [])
  on_paint := fun _ _ => ((), [])
  on_set_cursor := fun _ hwnd hwndCursor codeHitTest msg =>
    (defwp hwnd WM_SETCURSOR hwndCursor (MAKELPARAMn codeHitTest msg) % 2 ^ 32,
      [])
  on_message := fun _ window message wParam lParam =>
    (defwp window message wParam lParam, [])

/-- The effective handlers of `MainWindow<T>` when `T` adds no further
overrides (MikeWindows.h lines 226-237): the `AppWindow` defaults with
`on_destroy` overridden to `PostQuitMessage(1)`. -/
def MainWindowHandlers (defwp : HWND → UINT → WPARAM → LPARAM → LRESULT) :
    Handlers :=
  { defaultHandlers defwp with
    on_destroy := fun _ _ => ((), [Effect.postQuit 1]) }

/-!
## Construction (`register_class`, `create`, the `AppWindow` constructor)

`RegisterClassEx` and `CreateWindow` are platform collaborators.  The
outcome of the `RegisterClassEx` call is modelled by `RegisterResponse`
(failure carries the `GetLastError()` value the source reads); the handle
`CreateWindow` yields is an input (`0` on failure, in which case the
source reads `GetLastError()` for the thrown `win32_error`).  On success,
`CreateWindow` synchronously delivers `WM_NCCREATE` to `WndProc` with a
`CREATESTRUCT` whose `lpCreateParams` is the `this` pointer the source
passed as the last `CreateWindow` argument — before `CreateWindow`
returns the handle.
-/

/-- Outcome of the platform's `RegisterClassEx` call as observed by the
source: success, or failure together with the `GetLastError()` value. -/
inductive RegisterResponse
  | success
  | failure (lastError : DWORD)
deriving DecidableEq, Repr

/-- `AppWindow<T>::register_class` (MikeWindows.h lines 124-140): throws
`win32_error("RegisterClassEx")` carrying `GetLastError()` exactly when the
platform call fails with an error other than `ERROR_CLASS_ALREADY_EXISTS`. -/
def register_class (resp : RegisterResponse) : Except Win32Error Unit :=
  match resp with
  | RegisterResponse.success => Except.ok ()
  | RegisterResponse.failure e =>
      if e ≠ ERROR_CLASS_ALREADY_EXISTS then
        Except.error ⟨"RegisterClassEx".toList, e⟩
      else Except.ok ()

/-- Platform model: the class registry behind `RegisterClassEx`.
Registering a name that is already present fails with
`ERROR_CLASS_ALREADY_EXISTS`; registering a fresh name records it and
succeeds. -/
def platformRegisterClassEx (registered : List CStr) (name : CStr) :
    List CStr × RegisterResponse :=
  if name ∈ registered then
    (registered, RegisterResponse.failure ERROR_CLASS_ALREADY_EXISTS)
  else (name :: registered, RegisterResponse.success)

/-- `register_class` run against the platform class registry: the platform
call is made with the derived class name, and the source's
already-exists check is applied to its response. -/
def register_class_registry (registered : List CStr) (name : CStr) :
    List CStr × Except Win32Error Unit :=
  let pr := platformRegisterClassEx registered name
  (pr.1, register_class pr.2)

/-- Platform model: a successful `CreateWindow(class, caption, ..., this)`
call picks the fresh non-null handle `newHandle` and synchronously delivers
`WM_NCCREATE` to the class's `WndProc` for that handle, with `lParam`
addressing a `CREATESTRUCT` whose `lpCreateParams` field is `thisPtr`;
a failed call (`newHandle = 0`) yields the null handle.  Returns the state
after the creation message together with `CreateWindow`'s return value. -/
def platformCreateWindow (hs : Handlers) (s : WinState) (thisPtr : ObjPtr)
    (newHandle : HWND) : WinState × HWND :=
  if newHandle = 0 then (s, 0)
  else
    let pf : Platform := { lpCreateParams := fun _ => thisPtr }
    ((WndProc pf hs s newHandle WM_NCCREATE 0 0).state, newHandle)

/-- `AppWindow<T>::create` (MikeWindows.h lines 142-161): calls
`CreateWindow`, assigns the result to this object's `m_window`, and throws
`win32_error("CreateWindow")` carrying `GetLastError()` when the handle is
null. -/
def create (hs : Handlers) (s : WinState) (thisPtr : ObjPtr)
    (newHandle : HWND) (createLastError : DWORD) :
    Except Win32Error WinState :=
  let cr := platformCreateWindow hs s thisPtr newHandle
  let s2 := { cr.1 with
    mWindow := fun p => if p = thisPtr then cr.2 else cr.1.mWindow p }
  if cr.2 = 0 then Except.error ⟨"CreateWindow".toList, createLastError⟩
  else Except.ok s2

/-- The `AppWindow<T>` constructor body (MikeWindows.h lines 116-120):
`register_class` then `create`, each failure propagating synchronously out
of the constructor. -/
def construct (hs : Handlers) (s : WinState) (thisPtr : ObjPtr)
    (resp : RegisterResponse) (newHandle : HWND) (createLastError : DWORD) :
    Except Win32Error WinState :=
  match register_class resp with
  | Except.error e => Except.error e
  | Except.ok _ => create hs s thisPtr newHandle createLastError

/-!
## Helper lemmas
-/

/-- Chopping a single trailing CRLF off a description that ends in one. -/
lemma stripTrailingCRLF_append (s : CStr) :
    stripTrailingCRLF (s ++ ['\r', '\n']) = s := by
  unfold stripTrailingCRLF
  have hlen : (s ++ ['\r', '\n']).length = s.length + 2 := by simp
  rw [hlen]
  have hd : (s ++ ['\r', '\n']).drop (s.length + 2 - 2) = ['\r', '\n'] := by
    simp
  have ht : (s ++ ['\r', '\n']).take (s.length + 2 - 2) = s := by
    simp
  simp [hd, ht]

/-- A description that does not end in CRLF is left alone. -/
lemma stripTrailingCRLF_of_no_crlf (s : CStr)
    (h : ¬(2 ≤ s.length ∧ s.drop (s.length - 2) = ['\r', '\n'])) :
    stripTrailingCRLF s = s := by
  unfold stripTrailingCRLF
  simp [h]

/-- `Nat.digitChar` is injective below 10. -/
lemma digitChar_inj_lt_ten :
    ∀ d1 < 10, ∀ d2 < 10, Nat.digitChar d1 = Nat.digitChar d2 → d1 = d2 := by
  decide

/-- `natDigitsLE` is empty exactly on `0`. -/
lemma natDigitsLE_eq_nil_iff (n : Nat) : natDigitsLE n = [] ↔ n = 0 := by
  cases n with
  | zero => simp [natDigitsLE]
  | succ n => simp [natDigitsLE]

/-- The little-endian decimal digit list determines the number. -/
lemma natDigitsLE_inj : ∀ a b : Nat, natDigitsLE a = natDigitsLE b → a = b := by
  intro a
  induction a using Nat.strong_induction_on with
  | _ a ih =>
    intro b h
    cases a with
    | zero =>
      cases b with
      | zero => rfl
      | succ b => simp [natDigitsLE] at h
    | succ a =>
      cases b with
      | zero => simp [natDigitsLE] at h
      | succ b =>
        simp only [natDigitsLE, List.cons.injEq] at h
        have hmod : (a + 1) % 10 = (b + 1) % 10 :=
          digitChar_inj_lt_ten _ (Nat.mod_lt _ (by norm_num)) _
            (Nat.mod_lt _ (by norm_num)) h.1
        have hdiv : (a + 1) / 10 = (b + 1) / 10 :=
          ih ((a + 1) / 10) (Nat.div_lt_self (Nat.succ_pos a) (by norm_num))
            ((b + 1) / 10) h.2
        omega

/-- Decimal rendering is injective. -/
lemma decimalRender_inj : ∀ a b : Nat, decimalRender a = decimalRender b → a = b := by
  have key : ∀ b : Nat, b ≠ 0 → (natDigitsLE b).reverse = ['0'] → False := by
    intro b hb h
    rw [List.reverse_eq_iff] at h
    cases b with
    | zero => exact hb rfl
    | succ b =>
      simp only [natDigitsLE, List.reverse_cons, List.reverse_nil,
        List.nil_append, List.cons.injEq] at h
      have h10 : (b + 1) / 10 = 0 := (natDigitsLE_eq_nil_iff _).mp h.2
      have h0 : (b + 1) % 10 = 0 := by
        have : Nat.digitChar ((b + 1) % 10) = Nat.digitChar 0 := by
          simpa [Nat.digitChar] using h.1
        exact digitChar_inj_lt_ten _ (Nat.mod_lt _ (by norm_num)) 0
          (by norm_num) this
      omega
  intro a b h
  unfold decimalRender at h
  by_cases ha : a = 0 <;> by_cases hb : b = 0
  · omega
  · rw [if_pos ha, if_neg hb] at h
    exact absurd h.symm (fun hh => (key b hb hh).elim)
  · rw [if_neg ha, if_pos hb] at h
    exact absurd h (fun hh => (key a ha hh).elim)
  · rw [if_neg ha, if_neg hb] at h
    exact natDigitsLE_inj a b (List.reverse_injective h)

/-- `WndProc` on `WM_DESTROY` with a bound owner. -/
lemma WndProc_destroy (pf : Platform) (hs : Handlers) (s : WinState)
    (h : HWND) (w : WPARAM) (l : LPARAM) (p : ObjPtr)
    (hp : s.userData h = p) (h0 : p ≠ 0) :
    WndProc pf hs s h WM_DESTROY w l =
      ⟨s, [Call.callDestroy p h], (hs.on_destroy p h).2, Outcome.ret 0⟩ := by
  simp [WndProc, WM_DESTROY, WM_NCCREATE, hp, h0]

/-- `WndProc` on `WM_LBUTTONUP` with a bound owner. -/
lemma WndProc_lbuttonup (pf : Platform) (hs : Handlers) (s : WinState)
    (h : HWND) (w : WPARAM) (l : LPARAM) (p : ObjPtr)
    (hp : s.userData h = p) (h0 : p ≠ 0) :
    WndProc pf hs s h WM_LBUTTONUP w l =
      ⟨s, [Call.callLeftButtonUp p h (GET_X_LPARAM l) (GET_Y_LPARAM l)
            (w % 2 ^ 32)],
        (hs.on_left_button_up p h (GET_X_LPARAM l) (GET_Y_LPARAM l)
          (w % 2 ^ 32)).2,
        Outcome.ret 0⟩ := by
  simp [WndProc, WM_LBUTTONUP, WM_NCCREATE, WM_DESTROY, hp, h0]

/-- `WndProc` on `WM_MOUSEMOVE` with a bound owner. -/
lemma WndProc_mousemove (pf : Platform) (hs : Handlers) (s : WinState)
    (h : HWND) (w : WPARAM) (l : LPARAM) (p : ObjPtr)
    (hp : s.userData h = p) (h0 : p ≠ 0) :
    WndProc pf hs s h WM_MOUSEMOVE w l =
      ⟨s, [Call.callMouseMove p h (GET_X_LPARAM l) (GET_Y_LPARAM l)
            (w % 2 ^ 32)],
        (hs.on_mouse_move p h (GET_X_LPARAM l) (GET_Y_LPARAM l)
          (w % 2 ^ 32)).2,
        Outcome.ret 0⟩ := by
  simp [WndProc, WM_MOUSEMOVE, WM_NCCREATE, WM_DESTROY, WM_LBUTTONUP, hp, h0]

/-- `WndProc` on `WM_NCHITTEST` with a bound owner. -/
lemma WndProc_nchittest (pf : Platform) (hs : Handlers) (s : WinState)
    (h : HWND) (w : WPARAM) (l : LPARAM) (p : ObjPtr)
    (hp : s.userData h = p) (h0 : p ≠ 0) :
    WndProc pf hs s h WM_NCHITTEST w l =
      ⟨s, [Call.callHittest p h (GET_X_LPARAM l) (GET_Y_LPARAM l)],
        (hs.on_hittest p h (GET_X_LPARAM l) (GET_Y_LPARAM l)).2,
        Outcome.ret
          ((hs.on_hittest p h (GET_X_LPARAM l) (GET_Y_LPARAM l)).1 %
            2 ^ 32)⟩ := by
  simp [WndProc, WM_NCHITTEST, WM_NCCREATE, WM_DESTROY, WM_LBUTTONUP,
    WM_MOUSEMOVE, hp, h0]

/-- `WndProc` on `WM_PAINT` with a bound owner. -/
lemma WndProc_paint (pf : Platform) (hs : Handlers) (s : WinState)
    (h : HWND) (w : WPARAM) (l : LPARAM) (p : ObjPtr)
    (hp : s.userData h = p) (h0 : p ≠ 0) :
    WndProc pf hs s h WM_PAINT w l =
      ⟨s, [Call.callPaint p h], (hs.on_paint p h).2, Outcome.ret 0⟩ := by
  simp [WndProc, WM_PAINT, WM_NCCREATE, WM_DESTROY, WM_LBUTTONUP,
    WM_MOUSEMOVE, WM_NCHITTEST, hp, h0]

/-- `WndProc` on `WM_SETCURSOR` with a bound owner. -/
lemma WndProc_setcursor (pf : Platform) (hs : Handlers) (s : WinState)
    (h : HWND) (w : WPARAM) (l : LPARAM) (p : ObjPtr)
    (hp : s.userData h = p) (h0 : p ≠ 0) :
    WndProc pf hs s h WM_SETCURSOR w l =
      ⟨s, [Call.callSetCursor p h w (LOWORD l) (HIWORD l)],
        (hs.on_set_cursor p h w (LOWORD l) (HIWORD l)).2,
        Outcome.ret
          ((hs.on_set_cursor p h w (LOWORD l) (HIWORD l)).1 % 2 ^ 32)⟩ := by
  simp [WndProc, WM_SETCURSOR, WM_NCCREATE, WM_DESTROY, WM_LBUTTONUP,
    WM_MOUSEMOVE, WM_NCHITTEST, WM_PAINT, hp, h0]

/-- `WndProc` on an unsupported, non-creation code with a bound owner:
the final `this_->on_message(...)` line runs, once. -/
lemma WndProc_unsupported (pf : Platform) (hs : Handlers) (s : WinState)
    (h : HWND) (m : UINT) (w : WPARAM) (l : LPARAM) (p : ObjPtr)
    (hp : s.userData h = p) (h0 : p ≠ 0)
    (hm : m ∉ [WM_NCCREATE, WM_DESTROY, WM_LBUTTONUP, WM_MOUSEMOVE,
      WM_NCHITTEST, WM_PAINT, WM_SETCURSOR]) :
    WndProc pf hs s h m w l =
      ⟨s, [Call.callMessage p h m w l], (hs.on_message p h m w l).2,
        Outcome.ret (hs.on_message p h m w l).1⟩ := by
  simp only [List.mem_cons, List.not_mem_nil, or_false, not_or] at hm
  obtain ⟨h1, h2, h3, h4, h5, h6, h7⟩ := hm
  simp [WndProc, h1, h2, h3, h4, h5, h6, h7, hp, h0]

/-- `WndProc` on a message with a null recovered owner: the typed dispatch
block is skipped and the final fallback call goes through a null `this_`. -/
lemma WndProc_null_owner (pf : Platform) (hs : Handlers) (s : WinState)
    (h : HWND) (m : UINT) (w : WPARAM) (l : LPARAM)
    (hp : s.userData h = 0) (hm : m ≠ WM_NCCREATE) :
    WndProc pf hs s h m w l = ⟨s, [], [], Outcome.nullDeref⟩ := by
  simp [WndProc, hm, hp]

/-- Any non-creation message leaves the whole dispatch state unchanged. -/
lemma WndProc_state_of_ne_nccreate (pf : Platform) (hs : Handlers)
    (s : WinState) (h : HWND) (m : UINT) (w : WPARAM) (l : LPARAM)
    (hm : m ≠ WM_NCCREATE) :
    (WndProc pf hs s h m w l).state = s := by
  unfold WndProc
  simp only [if_neg hm]

/-- The creation message binds the per-handle user storage to the
creation parameter and records the handle in the object. -/
lemma WndProc_state_nccreate (pf : Platform) (hs : Handlers)
    (s : WinState) (h : HWND) (w : WPARAM) (l : LPARAM) :
    (WndProc pf hs s h WM_NCCREATE w l).state =
      { mWindow := fun p => if p = pf.lpCreateParams l then h else s.mWindow p,
        userData := fun h2 => if h2 = h then pf.lpCreateParams l
          else s.userData h2 } := by
  unfold WndProc
  simp

/-- Re-packing the decoded, sign-extended coordinates with `MAKELPARAM`
recovers the original `lParam` when it fits the platform's 32-bit
coordinate payload. -/
lemma MAKELPARAMi_roundtrip (l : Nat) (hl : l < 2 ^ 32) :
    MAKELPARAMi (GET_X_LPARAM l) (GET_Y_LPARAM l) = l := by
  have key : ∀ v : Nat, v < 2 ^ 16 → word16OfInt (signExtend16 v) = v := by
    intro v hv
    unfold word16OfInt signExtend16
    split <;> omega
  unfold MAKELPARAMi GET_X_LPARAM GET_Y_LPARAM LOWORD HIWORD
  rw [key _ (Nat.mod_lt _ (by norm_num)), key _ (Nat.mod_lt _ (by norm_num))]
  have goal : l % 2 ^ 16 + l / 2 ^ 16 % 2 ^ 16 * 2 ^ 16 = l := by omega
  exact goal

/-- Re-packing the decoded `LOWORD`/`HIWORD` with `MAKELPARAM` recovers the
original `lParam` when it fits 32 bits. -/
lemma MAKELPARAMn_roundtrip (l : Nat) (hl : l < 2 ^ 32) :
    MAKELPARAMn (LOWORD l) (HIWORD l) = l := by
  have goal : l % 2 ^ 16 % 2 ^ 16 + l / 2 ^ 16 % 2 ^ 16 % 2 ^ 16 * 2 ^ 16 = l := by
    omega
  exact goal

/-- Folding a list of `(handle, code, wParam, lParam)` messages through the
dispatch entry point. -/
def processMsgs (pf : Platform) (hs : Handlers) (s : WinState)
    (msgs : List (HWND × UINT × WPARAM × LPARAM)) : WinState :=
  msgs.foldl
    (fun st q => (WndProc pf hs st q.1 q.2.1 q.2.2.1 q.2.2.2).state) s

/-- A sequence of non-creation messages never touches the per-handle user
storage. -/
lemma processMsgs_no_create_userData (pf : Platform) (hs : Handlers) :
    ∀ (msgs : List (HWND × UINT × WPARAM × LPARAM)) (s : WinState),
      (∀ q ∈ msgs, q.2.1 ≠ WM_NCCREATE) →
      (processMsgs pf hs s msgs).userData = s.userData := by
  intro msgs
  induction msgs with
  | nil => intro s _; rfl
  | cons q t ih =>
    intro s hq
    have h1 : (WndProc pf hs s q.1 q.2.1 q.2.2.1 q.2.2.2).state = s :=
      WndProc_state_of_ne_nccreate pf hs s q.1 q.2.1 q.2.2.1 q.2.2.2
        (hq q (List.mem_cons_self q t))
    calc (processMsgs pf hs s (q :: t)).userData
        = (processMsgs pf hs
            (WndProc pf hs s q.1 q.2.1 q.2.2.1 q.2.2.2).state t).userData :=
          rfl
      _ = (processMsgs pf hs s t).userData := by rw [h1]
      _ = s.userData := ih s (fun q2 hq2 => hq q2 (List.mem_cons_of_mem q hq2))

/-- A trivial concrete stand-in for the platform's `DefWindowProc`, used in
concrete instances. -/
def defwp0 : HWND → UINT → WPARAM → LPARAM → LRESULT := fun _ _ _ _ => 0

/-- A concrete dispatch state whose user storage binds every handle to the
object at address 7. -/
def sBound : WinState := ⟨fun _ => 7, fun _ => 0⟩

/-- A concrete platform memory. -/
def pf0 : Platform := ⟨fun _ => 0⟩

/-!
## Claims
-/

/-- C9: the failure-message formatter yields
`"<message>: error <code>: <platform description>"` when the platform can
supply a description (stripping a single trailing CRLF from it first) and
`"<message>: error <code>"` otherwise. -/
theorem C9_format_shape (message : CStr) (code : DWORD) (d s : CStr)
    (hnb : ¬(2 ≤ s.length ∧ s.drop (s.length - 2) = ['\r', '\n'])) :
    win32_error.format message code (some d) =
      message ++ ": error ".toList ++ decimalRender code ++ ": ".toList ++
        stripTrailingCRLF d ∧
    win32_error.format message code none =
      message ++ ": error ".toList ++ decimalRender code ∧
    stripTrailingCRLF (s ++ ['\r', '\n']) = s ∧
    stripTrailingCRLF s = s := by
  refine ⟨?_, ?_, stripTrailingCRLF_append s, stripTrailingCRLF_of_no_crlf s hnb⟩
  · simp [win32_error.format, List.append_assoc]
  · simp [win32_error.format, List.append_assoc]

/-- C9 witness: the formatter at a concrete message, code and descriptions. -/
theorem C9_format_shape_witness :
    win32_error.format ['m'] 3 (some ['o', 'k', '\r', '\n']) =
      ['m'] ++ ": error ".toList ++ decimalRender 3 ++ ": ".toList ++
        stripTrailingCRLF ['o', 'k', '\r', '\n'] ∧
    stripTrailingCRLF (['o', 'k'] ++ ['\r', '\n']) = ['o', 'k'] := by
  have h := C9_format_shape ['m'] 3 ['o', 'k', '\r', '\n'] ['o', 'k'] (by decide)
  exact ⟨h.1, h.2.2.1⟩

/-- C1: when the `AppWindow<T>` constructor returns without throwing, the
object's stored `m_window` handle is non-null and the platform per-handle
user storage for that handle holds exactly that object's address (bound
during the creation message, before the constructor returned). -/
theorem C1_construction_binds (hs : Handlers) (s : WinState)
    (thisPtr : ObjPtr) (resp : RegisterResponse) (newHandle : HWND)
    (createLastError : DWORD) (s2 : WinState) (_hthis : thisPtr ≠ 0)
    (hok : construct hs s thisPtr resp newHandle createLastError =
      Except.ok s2) :
    s2.mWindow thisPtr ≠ 0 ∧ s2.userData (s2.mWindow thisPtr) = thisPtr := by
  unfold construct at hok
  split at hok
  · exact absurd hok (by simp)
  by_cases hn : newHandle = 0
  · simp [create, platformCreateWindow, hn] at hok
  unfold create platformCreateWindow at hok
  rw [if_neg hn] at hok
  simp only [if_neg hn, Except.ok.injEq] at hok
  subst hok
  constructor
  · simp [hn]
  · simp only [if_pos rfl]
    rw [WndProc_state_nccreate]
    simp

/-- C1 witness: a concrete successful construction. -/
theorem C1_construction_binds_witness :
    (match construct (defaultHandlers defwp0) ⟨fun _ => 0, fun _ => 0⟩ 7
        RegisterResponse.success 5 0 with
      | Except.ok s2 => s2
      | Except.error _ => ⟨fun _ => 0, fun _ => 0⟩).mWindow 7 ≠ 0 ∧
    (match construct (defaultHandlers defwp0) ⟨fun _ => 0, fun _ => 0⟩ 7
        RegisterResponse.success 5 0 with
      | Except.ok s2 => s2
      | Except.error _ => ⟨fun _ => 0, fun _ => 0⟩).userData
      ((match construct (defaultHandlers defwp0) ⟨fun _ => 0, fun _ => 0⟩ 7
          RegisterResponse.success 5 0 with
        | Except.ok s2 => s2
        | Except.error _ => ⟨fun _ => 0, fun _ => 0⟩).mWindow 7) = 7 :=
  C1_construction_binds (defaultHandlers defwp0) ⟨fun _ => 0, fun _ => 0⟩ 7
    RegisterResponse.success 5 0 _ (by decide) rfl

/-- C2: with a bound, non-null owner, each of the six supported codes is
routed to the concrete type's effective handler — the most-derived override,
since every handler call goes through the CRTP `this_ : T *` — with the
arguments decoded from `wParam`/`lParam` exactly as the WindowsX crackers
decode them, and every other (non-creation) code invokes the generic
`on_message` fallback exactly once. -/
theorem C2_dispatch_routing (pf : Platform) (hs : Handlers) (s : WinState)
    (h : HWND) (w : WPARAM) (l : LPARAM) (p : ObjPtr)
    (hp : s.userData h = p) (h0 : p ≠ 0) :
    (WndProc pf hs s h WM_DESTROY w l).calls = [Call.callDestroy p h] ∧
    (WndProc pf hs s h WM_LBUTTONUP w l).calls =
      [Call.callLeftButtonUp p h (GET_X_LPARAM l) (GET_Y_LPARAM l)
        (w % 2 ^ 32)] ∧
    (WndProc pf hs s h WM_MOUSEMOVE w l).calls =
      [Call.callMouseMove p h (GET_X_LPARAM l) (GET_Y_LPARAM l)
        (w % 2 ^ 32)] ∧
    (WndProc pf hs s h WM_NCHITTEST w l).calls =
      [Call.callHittest p h (GET_X_LPARAM l) (GET_Y_LPARAM l)] ∧
    (WndProc pf hs s h WM_PAINT w l).calls = [Call.callPaint p h] ∧
    (WndProc pf hs s h WM_SETCURSOR w l).calls =
      [Call.callSetCursor p h w (LOWORD l) (HIWORD l)] ∧
    ∀ m : UINT, m ∉ [WM_NCCREATE, WM_DESTROY, WM_LBUTTONUP, WM_MOUSEMOVE,
        WM_NCHITTEST, WM_PAINT, WM_SETCURSOR] →
      (WndProc pf hs s h m w l).calls = [Call.callMessage p h m w l] := by
  refine ⟨?_, ?_, ?_, ?_, ?_, ?_, ?_⟩
  · rw [WndProc_destroy pf hs s h w l p hp h0]
  · rw [WndProc_lbuttonup pf hs s h w l p hp h0]
  · rw [WndProc_mousemove pf hs s h w l p hp h0]
  · rw [WndProc_nchittest pf hs s h w l p hp h0]
  · rw [WndProc_paint pf hs s h w l p hp h0]
  · rw [WndProc_setcursor pf hs s h w l p hp h0]
  · intro m hm
    rw [WndProc_unsupported pf hs s h m w l p hp h0 hm]

/-- C2 witness: concrete routing of a supported and an unsupported code. -/
theorem C2_dispatch_routing_witness :
    (WndProc pf0 (defaultHandlers defwp0) sBound 1 WM_DESTROY 0 0).calls =
      [Call.callDestroy 7 1] ∧
    (WndProc pf0 (defaultHandlers defwp0) sBound 1 1024 0 0).calls =
      [Call.callMessage 7 1 1024 0 0] := by
  have t := C2_dispatch_routing pf0 (defaultHandlers defwp0) sBound 1 0 0 7
    rfl (by decide)
  exact ⟨t.1, t.2.2.2.2.2.2 1024 (by decide)⟩

/-- C3: when the per-handle lookup recovers a null owner, the typed dispatch
block is skipped (no handler is invoked), yet the entry point still reaches
the final `this_->on_message(...)` call through the null pointer — the
latent null dereference the spec flags. -/
theorem C3_null_owner_dispatch (pf : Platform) (hs : Handlers) (s : WinState)
    (h : HWND) (m : UINT) (w : WPARAM) (l : LPARAM)
    (hp : s.userData h = 0) (hm : m ≠ WM_NCCREATE) :
    (WndProc pf hs s h m w l).calls = [] ∧
    (WndProc pf hs s h m w l).outcome = Outcome.nullDeref := by
  rw [WndProc_null_owner pf hs s h m w l hp hm]
  exact ⟨rfl, rfl⟩

/-- C3 witness: a concrete message to an unbound handle. -/
theorem C3_null_owner_dispatch_witness :
    (WndProc pf0 (defaultHandlers defwp0) ⟨fun _ => 0, fun _ => 0⟩ 1
      WM_PAINT 0 0).calls = [] ∧
    (WndProc pf0 (defaultHandlers defwp0) ⟨fun _ => 0, fun _ => 0⟩ 1
      WM_PAINT 0 0).outcome = Outcome.nullDeref :=
  C3_null_owner_dispatch pf0 (defaultHandlers defwp0) ⟨fun _ => 0, fun _ => 0⟩
    1 WM_PAINT 0 0 rfl (by decide)

/-- A concrete type whose `on_message` override answers 5 to everything. -/
def onMessageOverrideHandlers : Handlers :=
  { defaultHandlers defwp0 with on_message := fun _ _ _ _ _ => (5, []) }

/-- C4 counterexample: for `WM_PAINT` dispatched to a bound handle of a type
that overrides `on_message`, the entry point returns `0L` (from the
`HANDLE_WM_PAINT` cracker), which differs from what `on_message` would
return for that same message — so the entry point's return value does not
equal the generic fallback's result. -/
theorem C4_counterexample :
    (WndProc pf0 onMessageOverrideHandlers sBound 1 WM_PAINT 0 0).outcome ≠
      Outcome.ret ((onMessageOverrideHandlers.on_message 7 1 WM_PAINT 0 0).1) := by
  decide

/-- C4 (amended): for the four supported codes whose handlers return
nothing, the entry point returns the crackers' constant `0L` to the
platform, and `on_message` is not invoked at all. -/
theorem C4_void_handlers_return_zero (pf : Platform) (hs : Handlers)
    (s : WinState) (h : HWND) (w : WPARAM) (l : LPARAM) (p : ObjPtr)
    (m : UINT) (hp : s.userData h = p) (h0 : p ≠ 0)
    (hm : m ∈ [WM_DESTROY, WM_LBUTTONUP, WM_MOUSEMOVE, WM_PAINT]) :
    (WndProc pf hs s h m w l).outcome = Outcome.ret 0 ∧
    ∀ c ∈ (WndProc pf hs s h m w l).calls,
      ∀ p2 h2 m2 w2 l2, c ≠ Call.callMessage p2 h2 m2 w2 l2 := by
  simp only [List.mem_cons, List.not_mem_nil, or_false] at hm
  rcases hm with rfl | rfl | rfl | rfl
  · rw [WndProc_destroy pf hs s h w l p hp h0]
    exact ⟨rfl, by intro c hc p2 h2 m2 w2 l2; simp at hc; simp [hc]⟩
  · rw [WndProc_lbuttonup pf hs s h w l p hp h0]
    exact ⟨rfl, by intro c hc p2 h2 m2 w2 l2; simp at hc; simp [hc]⟩
  · rw [WndProc_mousemove pf hs s h w l p hp h0]
    exact ⟨rfl, by intro c hc p2 h2 m2 w2 l2; simp at hc; simp [hc]⟩
  · rw [WndProc_paint pf hs s h w l p hp h0]
    exact ⟨rfl, by intro c hc p2 h2 m2 w2 l2; simp at hc; simp [hc]⟩

/-- C4 witness: a concrete void-handler dispatch returning 0. -/
theorem C4_void_handlers_return_zero_witness :
    (WndProc pf0 (defaultHandlers defwp0) sBound 1 WM_PAINT 0 0).outcome =
      Outcome.ret 0 :=
  (C4_void_handlers_return_zero pf0 (defaultHandlers defwp0) sBound 1 0 0 7
    WM_PAINT rfl (by decide) (by decide)).1

/-- C6 counterexample: after `MainWindow`'s destroy handling ran (posting
quit with exit code 1), the per-handle binding is still in place, so a later
message to the same handle still invokes a handler (`on_paint` here) —
refuting that no other handler executes for that handle afterwards. -/
theorem C6_counterexample :
    (WndProc pf0 (MainWindowHandlers defwp0) sBound 1 WM_DESTROY 0 0).effects =
      [Effect.postQuit 1] ∧
    (WndProc pf0 (MainWindowHandlers defwp0)
        (WndProc pf0 (MainWindowHandlers defwp0) sBound 1 WM_DESTROY 0 0).state
        1 WM_PAINT 0 0).calls = [Call.callPaint 7 1] := by
  decide

/-- C6 (amended): delivering `WM_DESTROY` to a bound `MainWindow<T>` handle
invokes exactly its `on_destroy` override, which requests message-pump
termination with exit signal value exactly 1 (`PostQuitMessage(1)`); the
per-handle binding however survives, so later messages to the handle still
dispatch. -/
theorem C6_mainwindow_destroy
    (defwp : HWND → UINT → WPARAM → LPARAM → LRESULT) (pf : Platform)
    (s : WinState) (h : HWND) (w : WPARAM) (l : LPARAM) (p : ObjPtr)
    (hp : s.userData h = p) (h0 : p ≠ 0) :
    (WndProc pf (MainWindowHandlers defwp) s h WM_DESTROY w l).calls =
      [Call.callDestroy p h] ∧
    (WndProc pf (MainWindowHandlers defwp) s h WM_DESTROY w l).effects =
      [Effect.postQuit 1] ∧
    (WndProc pf (MainWindowHandlers defwp) s h WM_DESTROY w l).state.userData =
      s.userData := by
  rw [WndProc_destroy pf (MainWindowHandlers defwp) s h w l p hp h0]
  exact ⟨rfl, rfl, rfl⟩

/-- C6 witness: a concrete `MainWindow` destroy dispatch. -/
theorem C6_mainwindow_destroy_witness :
    (WndProc pf0 (MainWindowHandlers defwp0) sBound 1 WM_DESTROY 0 0).effects =
      [Effect.postQuit 1] :=
  (C6_mainwindow_destroy defwp0 pf0 sBound 1 0 0 7 rfl (by decide)).2.1

/-- C8: the per-handle binding is written only by the creation-message
branch (which stores the creation parameter), every non-creation message
leaves the user storage untouched (in particular `WM_DESTROY` never clears
it), and hence any sequence of non-creation messages preserves every
binding, so later lookups recover the pointer stored at bind time. -/
theorem C8_binding_write_once (pf : Platform) (hs : Handlers) (s : WinState)
    (h : HWND) (m : UINT) (w : WPARAM) (l : LPARAM)
    (msgs : List (HWND × UINT × WPARAM × LPARAM))
    (hm : m ≠ WM_NCCREATE) (hmsgs : ∀ q ∈ msgs, q.2.1 ≠ WM_NCCREATE) :
    (WndProc pf hs s h m w l).state.userData = s.userData ∧
    (WndProc pf hs s h WM_NCCREATE w l).state.userData h =
      pf.lpCreateParams l ∧
    (processMsgs pf hs s msgs).userData = s.userData := by
  refine ⟨?_, ?_, processMsgs_no_create_userData pf hs msgs s hmsgs⟩
  · rw [WndProc_state_of_ne_nccreate pf hs s h m w l hm]
  · rw [WndProc_state_nccreate]
    simp

/-- C8 witness: a concrete bind followed by a destroy and a paint that leave
the binding intact. -/
theorem C8_binding_write_once_witness :
    (processMsgs pf0 (defaultHandlers defwp0) sBound
        [(1, WM_DESTROY, 0, 0), (1, WM_PAINT, 0, 0)]).userData =
      sBound.userData ∧
    (WndProc pf0 (defaultHandlers defwp0) sBound 1 WM_NCCREATE 0 0).state.userData
      1 = pf0.lpCreateParams 0 := by
  have t := C8_binding_write_once pf0 (defaultHandlers defwp0) sBound 1
    WM_DESTROY 0 0 [(1, WM_DESTROY, 0, 0), (1, WM_PAINT, 0, 0)]
    (by decide) (by decide)
  exact ⟨t.2.2, t.2.1⟩

/-- C10: with the platform's documented message formats (`WM_NCHITTEST`
carries an unused zero `wParam` and packs the coordinates in the low 32 bits
of `lParam`; `WM_SETCURSOR` packs hit-test code and message id in the low 32
bits; both queries are answered within 32 bits), the non-overridden
`on_hittest` and `on_set_cursor` defaults make the entry point return
exactly what `DefWindowProc` returns for the same inputs. -/
theorem C10_default_passthrough
    (defwp : HWND → UINT → WPARAM → LPARAM → LRESULT) (pf : Platform)
    (s : WinState) (h : HWND) (w : WPARAM) (l : LPARAM) (p : ObjPtr)
    (hp : s.userData h = p) (h0 : p ≠ 0) (hl : l < 2 ^ 32) :
    (w = 0 → defwp h WM_NCHITTEST w l < 2 ^ 32 →
      (WndProc pf (defaultHandlers defwp) s h WM_NCHITTEST w l).outcome =
        Outcome.ret (defwp h WM_NCHITTEST w l)) ∧
    (defwp h WM_SETCURSOR w l < 2 ^ 32 →
      (WndProc pf (defaultHandlers defwp) s h WM_SETCURSOR w l).outcome =
        Outcome.ret (defwp h WM_SETCURSOR w l)) := by
  constructor
  · intro hw hr
    subst hw
    rw [WndProc_nchittest pf (defaultHandlers defwp) s h 0 l p hp h0]
    simp only [defaultHandlers, MAKELPARAMi_roundtrip l hl]
    rw [Nat.mod_eq_of_lt hr, Nat.mod_eq_of_lt hr]
  · intro hr
    rw [WndProc_setcursor pf (defaultHandlers defwp) s h w l p hp h0]
    simp only [defaultHandlers, MAKELPARAMn_roundtrip l hl]
    rw [Nat.mod_eq_of_lt hr, Nat.mod_eq_of_lt hr]

/-- C10 witness: the pass-through law at a concrete `DefWindowProc`. -/
theorem C10_default_passthrough_witness :
    (WndProc pf0 (defaultHandlers (fun a b c d => a + b + c + d)) sBound 1
      WM_NCHITTEST 0 10).outcome = Outcome.ret 143 ∧
    (WndProc pf0 (defaultHandlers (fun a b c d => a + b + c + d)) sBound 1
      WM_SETCURSOR 0 10).outcome = Outcome.ret 43 := by
  have t := C10_default_passthrough (fun a b c d => a + b + c + d) pf0 sBound
    1 0 10 7 rfl (by decide) (by decide)
  exact ⟨t.1 rfl (by decide), t.2 (by decide)⟩

/-- C5: `win32_error` escapes the constructor exactly when class
registration fails with an error other than "class already exists" (then
with context label `RegisterClassEx` and that error code) or window creation
yields no handle (then with context label `CreateWindow` and the recorded
error code); and registering the same concrete type's class name twice
against the platform registry succeeds both times. -/
theorem C5_failure_characterisation (hs : Handlers) (s : WinState)
    (thisPtr : ObjPtr) (resp : RegisterResponse) (newHandle : HWND)
    (createLastError : DWORD) (err : Win32Error) (registered : List CStr)
    (name : CStr) :
    (construct hs s thisPtr resp newHandle createLastError =
        Except.error err ↔
      ((∃ e, resp = RegisterResponse.failure e ∧
          e ≠ ERROR_CLASS_ALREADY_EXISTS ∧
          err = ⟨"RegisterClassEx".toList, e⟩) ∨
        (register_class resp = Except.ok () ∧ newHandle = 0 ∧
          err = ⟨"CreateWindow".toList, createLastError⟩))) ∧
    (register_class_registry registered name).2 = Except.ok () ∧
    (register_class_registry
        (register_class_registry registered name).1 name).2 =
      Except.ok () := by
  refine ⟨?_, ?_, ?_⟩
  · cases resp with
    | success =>
      by_cases hn : newHandle = 0 <;>
        simp [construct, register_class, create, platformCreateWindow, hn,
          eq_comm]
    | failure e =>
      by_cases he : e = ERROR_CLASS_ALREADY_EXISTS
      · subst he
        by_cases hn : newHandle = 0 <;>
          simp [construct, register_class, create, platformCreateWindow, hn,
            eq_comm]
      · simp [construct, register_class, he, eq_comm]
  · by_cases hmem : name ∈ registered <;>
      simp [register_class_registry, platformRegisterClassEx, register_class,
        hmem]
  · by_cases hmem : name ∈ registered <;>
      simp [register_class_registry, platformRegisterClassEx, register_class,
        hmem]

/-- C7: the derived window-class name is a function of the dispatch entry
point's identity (equal identities give equal names), and distinct
dispatch-entry-point identities — as distinct concrete window types `T1 ≠ T2`
have, each instantiation `AppWindow<T>::WndProc` being a distinct function —
give distinct names. -/
theorem C7_class_name_distinct (a1 a2 : Nat) :
    (a1 = a2 → get_class_name a1 = get_class_name a2) ∧
    (a1 ≠ a2 → get_class_name a1 ≠ get_class_name a2) := by
  constructor
  · intro h
    rw [h]
  · intro hne hc
    exact hne (decimalRender_inj a1 a2 hc)

/-- C7 witness: two concrete distinct entry-point addresses give distinct
class names. -/
theorem C7_class_name_distinct_witness :
    get_class_name 12 ≠ get_class_name 21 :=
  (C7_class_name_distinct 12 21).2 (by decide)

end MikeWindows
